import Mathlib

/-!
Shallow embedding of the distributed-commands coordinator
(`src/command.py`, `src/master.py`).

Conventions used throughout:
* Python `None`-able fields become `Option`.
* Timestamps (Python floats from `time.time()`) are abstracted to `Nat`;
  functions that read the clock take the current time as an explicit argument.
* The class-level id generator `Command.ID` is threaded explicitly: functions
  that touch it take its current value and return the updated one.
* The filesystem (metadata file `commands.json`, per-id stdout/stderr files)
  is part of `MasterState`; the per-id directories are association lists
  from command id to file content, with overwrite-on-write semantics.
* The display collaborator (lazython, the per-command `line` handle,
  `update_lazython`) is outside the core per the spec and carries no
  persisted data; it is not modelled.
-/

/-- Model of `Command` from `src/command.py` (the opaque `line` display
handle omitted). All optional fields are `None` in Python when absent. -/
structure Command where
  id : Int
  command : String
  exit_code : Option Int
  stdout : String
  stderr : String
  start_time : Option Nat
  end_time : Option Nat
deriving DecidableEq, Repr

/-- Model of the Python constructor `Command.__init__` (command.py lines
15-40): all fields are stored; if the given id is negative (the default
`-1`), the class-level generator `Command.ID` is assigned as the id and then
incremented. Takes the generator value `ID`, returns the command and the new
generator value. -/
def Command.init (ID : Int) (id : Int) (command : String) (exit_code : Option Int)
    (stdout stderr : String) (start_time end_time : Option Nat) : Command × Int :=
  if id < 0 then
    ({ id := ID, command := command, exit_code := exit_code, stdout := stdout,
       stderr := stderr, start_time := start_time, end_time := end_time }, ID + 1)
  else
    ({ id := id, command := command, exit_code := exit_code, stdout := stdout,
       stderr := stderr, start_time := start_time, end_time := end_time }, ID)

/-- `Command(command=text)` as used by `Master.add_command`: default id `-1`,
so a fresh id is drawn from the generator. -/
def Command.create (ID : Int) (command : String) : Command × Int :=
  Command.init ID (-1) command none "" "" none none

/-- `Command.is_running` (command.py lines 42-48):
start time set and end time unset. -/
def Command.is_running (c : Command) : Bool :=
  c.start_time.isSome && c.end_time.isNone

/-- `Command.is_ran` (command.py lines 50-56): end time set. -/
def Command.is_ran (c : Command) : Bool :=
  c.end_time.isSome

/-- `Command.is_choosable` (command.py lines 58-64):
neither running nor ran. -/
def Command.is_choosable (c : Command) : Bool :=
  !c.is_running && !c.is_ran

/-- The JSON object built by `Command.serialize` (command.py lines 107-125):
keys id, command, exit_code, start_time, end_time, and, unless `no_std` is
set, stdout and stderr (both present or both absent, modelled as one
optional pair). -/
structure SerializedCommand where
  id : Int
  command : String
  exit_code : Option Int
  start_time : Option Nat
  end_time : Option Nat
  std : Option (String × String)
deriving DecidableEq, Repr

/-- `Command.serialize` (command.py lines 107-125). -/
def Command.serialize (c : Command) (no_std : Bool) : SerializedCommand :=
  { id := c.id, command := c.command, exit_code := c.exit_code,
    start_time := c.start_time, end_time := c.end_time,
    std := if no_std then none else some (c.stdout, c.stderr) }

/-- `Command.deserialize` (command.py lines 127-149): first advances the
class-level generator past the incoming id when needed, then calls the
constructor with the serialized fields; absent stdout/stderr default to the
empty string (`data.get` with default). -/
def Command.deserialize (ID : Int) (s : SerializedCommand) : Command × Int :=
  let ID₁ := if s.id ≥ ID then s.id + 1 else ID
  Command.init ID₁ s.id s.command s.exit_code ((s.std.map Prod.fst).getD "")
    ((s.std.map Prod.snd).getD "") s.start_time s.end_time

/-- Overwrite-on-write file store: replace the entry for `id` when present,
otherwise create it. -/
def fsWrite : List (Int × String) → Int → String → List (Int × String)
  | [], id, content => [(id, content)]
  | (k, v) :: rest, id, content =>
    if k = id then (id, content) :: rest else (k, v) :: fsWrite rest id content

/-- Read a file from the store; `none` models `FileNotFoundError`. -/
def fsRead (files : List (Int × String)) (id : Int) : Option String :=
  (files.find? (fun kv => kv.1 = id)).map (fun kv => kv.2)

/-- The coordinator's state (master.py): class-level `Master.commands`, the
id generator `Command.ID`, and the durable mirror: the metadata file
`commands.json` (`none` = file absent) and the per-id stdout/stderr
directories. -/
structure MasterState where
  commands : List Command
  nextID : Int
  commandsFile : Option (List SerializedCommand)
  stdoutFiles : List (Int × String)
  stderrFiles : List (Int × String)
deriving DecidableEq, Repr

/-- `Master.save` (master.py lines 305-310): write every command, serialized
without stdout/stderr, to the metadata file. -/
def Master.save (s : MasterState) : MasterState :=
  { s with commandsFile := some (s.commands.map (fun c => Command.serialize c true)) }

/-- `Master.choose_command` (master.py lines 214-225): scan the list in
order, on the first choosable command set its start time to the current
clock and return it; `now` models `time.time()`. Returns the chosen command
(if any) and the updated list. -/
def Master.choose_command (now : Nat) : List Command → Option Command × List Command
  | [] => (none, [])
  | c :: cs =>
    if c.is_choosable then
      (some { c with start_time := some now }, { c with start_time := some now } :: cs)
    else
      ((Master.choose_command now cs).1, c :: (Master.choose_command now cs).2)

/-- Response of the GET handler: HTTP 204 with no body, or HTTP 200 with a
serialized command as body. -/
inductive GetResponse where
  | noContent
  | ok (body : SerializedCommand)
deriving DecidableEq, Repr

/-- `Master.do_GET` (master.py lines 25-44): choose a command; if none,
answer 204; otherwise answer 200 with `command.serialize()` (note: `no_std`
defaults to `False`, so stdout/stderr are included) and save. -/
def Master.do_GET (now : Nat) (s : MasterState) : GetResponse × MasterState :=
  match (Master.choose_command now s.commands).1 with
  | none => (GetResponse.noContent, { s with commands := (Master.choose_command now s.commands).2 })
  | some c =>
    (GetResponse.ok (Command.serialize c false),
      Master.save { s with commands := (Master.choose_command now s.commands).2 })

/-- The update loop of `Master.do_POST` (master.py lines 61-71): find the
first stored command with the incoming id and overwrite its command text,
exit_code, stdout, stderr, start_time and end_time (the id and display
handle are untouched). -/
def Master.applyReport (c : Command) : List Command → List Command
  | [] => []
  | x :: xs =>
    if x.id = c.id then
      { x with command := c.command, exit_code := c.exit_code, stdout := c.stdout,
               stderr := c.stderr, start_time := c.start_time, end_time := c.end_time } :: xs
    else
      x :: Master.applyReport c xs

/-- `Master.do_POST` (master.py lines 46-79): always answer 204, deserialize
the body (which advances the id generator), overwrite the matching stored
command if any, save the metadata file, and write the reported stdout and
stderr to the per-id files. -/
def Master.do_POST (r : SerializedCommand) (s : MasterState) : Nat × MasterState :=
  let c := (Command.deserialize s.nextID r).1
  let s₁ := Master.save { s with commands := Master.applyReport c s.commands,
                                 nextID := (Command.deserialize s.nextID r).2 }
  (204, { s₁ with stdoutFiles := fsWrite s₁.stdoutFiles c.id c.stdout,
                  stderrFiles := fsWrite s₁.stderrFiles c.id c.stderr })

/-- Python `str.isspace`: non-empty and all whitespace (stated on the
character list so that it evaluates by kernel reduction). -/
def pyIsspace (s : String) : Bool :=
  !s.data.isEmpty && s.data.all Char.isWhitespace

/-- The rejection test of `Master.add_command` (master.py line 186):
the text is empty or is all whitespace. -/
def isBlankLine (t : String) : Bool :=
  t == "" || pyIsspace t

/-- `Master.add_command` on a string (master.py lines 178-195): empty or
all-whitespace text is rejected; otherwise a fresh Pending command is
appended, the metadata file saved, and its (empty) stdout/stderr files
written. -/
def Master.add_command (text : String) (s : MasterState) : MasterState :=
  if isBlankLine text then s
  else
    let c := (Command.create s.nextID text).1
    let s₁ := Master.save { s with commands := s.commands ++ [c],
                                   nextID := (Command.create s.nextID text).2 }
    { s₁ with stdoutFiles := fsWrite s₁.stdoutFiles c.id c.stdout,
              stderrFiles := fsWrite s₁.stderrFiles c.id c.stderr }

/-- The per-line trailing-newline strip of `Master.add_commands_from_file`
(master.py lines 207-208): drop the last character when it is a newline,
stated on the character list (`readlines` never yields an empty string, so
the Python last-character test coincides with `getLast?`). -/
def stripNL (line : String) : String :=
  if line.data.getLast? = some '\n' then String.mk line.data.dropLast else line

/-- `Master.add_commands_from_file` (master.py lines 197-212): the input is
the `readlines` result of the file, or `none` for `FileNotFoundError`
(a silent no-op); each line is stripped of its trailing newline and passed
to `add_command`. -/
def Master.add_commands_from_file (file : Option (List String)) (s : MasterState) : MasterState :=
  match file with
  | none => s
  | some lines => lines.foldl (fun acc line => Master.add_command (stripNL line) acc) s

/-- `Master.restart_command` (master.py lines 286-303) with the display
selection modelled as an index `i` into the command list: a no-op unless the
selected command `is_ran`; otherwise exit_code, stdout, stderr, start_time
and end_time are cleared in place, the metadata file saved, and the per-id
output files rewritten with the now-empty streams. -/
def Master.restart_command (i : Nat) (s : MasterState) : MasterState :=
  match s.commands[i]? with
  | none => s
  | some c =>
    if c.is_ran then
      let c' : Command := { id := c.id, command := c.command, exit_code := none,
                            stdout := "", stderr := "", start_time := none, end_time := none }
      let s₁ := Master.save { s with commands := s.commands.set i c' }
      { s₁ with stdoutFiles := fsWrite s₁.stdoutFiles c.id "",
                stderrFiles := fsWrite s₁.stderrFiles c.id "" }
    else s

/-- Deserialize a list of records in order, threading the id generator
(the loop over `data` in `Master.load`, master.py lines 322-325). -/
def Master.deserializeAll (ID : Int) : List SerializedCommand → List Command × Int
  | [] => ([], ID)
  | r :: rest =>
    let c := (Command.deserialize ID r).1
    let p := Master.deserializeAll (Command.deserialize ID r).2 rest
    (c :: p.1, p.2)

/-- The stdout/stderr hydration loop of `Master.load` (master.py lines
327-338): read each per-id file, keeping the current value on
`FileNotFoundError`. -/
def Master.hydrate (so se : List (Int × String)) (c : Command) : Command :=
  let c₁ := match fsRead so c.id with
    | some content => { c with stdout := content }
    | none => c
  match fsRead se c₁.id with
  | some content => { c₁ with stderr := content }
  | none => c₁

/-- `Master.load` (master.py lines 312-338): absent metadata file is a
silent no-op; otherwise deserialize every record (advancing the id
generator), append to the command list, then hydrate stdout/stderr of every
command from the per-id files. -/
def Master.load (s : MasterState) : MasterState :=
  match s.commandsFile with
  | none => s
  | some data =>
    let p := Master.deserializeAll s.nextID data
    { s with commands := (s.commands ++ p.1).map (Master.hydrate s.stdoutFiles s.stderrFiles),
             nextID := p.2 }

/-- A coordinator at process start: no commands, generator at 0, no files. -/
def emptyMaster : MasterState :=
  { commands := [], nextID := 0, commandsFile := none, stdoutFiles := [], stderrFiles := [] }

example : (Command.create 0 "echo hi").1.id = 0 := by decide
example : (Command.create 0 "echo hi").2 = 1 := by decide
example : (Master.add_command "echo hi" emptyMaster).commands.length = 1 := by decide
example : (Master.add_command "   " emptyMaster) = emptyMaster := by decide

/-! ### Helper lemmas about the command state machine and dispatch -/

theorem Command.is_choosable_iff (c : Command) :
    c.is_choosable = true ↔ c.start_time = none ∧ c.end_time = none := by
  cases h1 : c.start_time <;> cases h2 : c.end_time <;>
    simp [Command.is_choosable, Command.is_running, Command.is_ran, h1, h2]

theorem Command.marked_not_choosable (now : Nat) (c : Command) :
    Command.is_choosable { c with start_time := some now } = false := by
  cases h2 : c.end_time <;>
    simp [Command.is_choosable, Command.is_running, Command.is_ran, h2]

theorem choose_command_fst (now : Nat) (l : List Command) :
    (Master.choose_command now l).1
      = (l.find? Command.is_choosable).map (fun c => { c with start_time := some now }) := by
  induction l with
  | nil => rfl
  | cons c cs ih =>
    by_cases h : c.is_choosable = true
    · simp [Master.choose_command, h]
    · simp only [Bool.not_eq_true] at h
      simp [Master.choose_command, h, ih]

theorem choose_command_snd_of_none (now : Nat) (l : List Command)
    (h : ∀ c ∈ l, ¬ c.is_choosable = true) :
    (Master.choose_command now l).2 = l := by
  induction l with
  | nil => rfl
  | cons c cs ih =>
    have hc : c.is_choosable = false := by
      have := h c (by simp)
      simpa using this
    simp [Master.choose_command, hc, ih fun x hx => h x (by simp [hx])]

theorem choose_command_countP (now : Nat) (l : List Command) (c : Command)
    (h : l.find? Command.is_choosable = some c) :
    ((Master.choose_command now l).2).countP Command.is_choosable + 1
      = l.countP Command.is_choosable := by
  induction l with
  | nil => simp at h
  | cons x xs ih =>
    by_cases hx : x.is_choosable = true
    · simp [Master.choose_command, hx, List.countP_cons, Command.marked_not_choosable]
    · simp only [Bool.not_eq_true] at hx
      rw [List.find?_cons_of_neg _ (by simp [hx])] at h
      simp [Master.choose_command, hx, List.countP_cons, ih h]

/-- Claim C3: dispatch selection is deterministic FIFO. First conjunct: for
every clock value and every command list, `choose_command` returns exactly
the first `Choosable` command of the list (in insertion order), marked
Running by setting its start time. Second conjunct: with commands A, B, C
where A was already dispatched (Running) and B is Running, the next dispatch
returns C (id 2), never A or B. -/
theorem choose_command_fifo :
    (∀ (now : Nat) (l : List Command),
        (Master.choose_command now l).1
          = (l.find? Command.is_choosable).map (fun c => { c with start_time := some now })) ∧
    (Master.choose_command 9
        [{ id := 0, command := "A", exit_code := none, stdout := "", stderr := "",
           start_time := some 1, end_time := none },
         { id := 1, command := "B", exit_code := none, stdout := "", stderr := "",
           start_time := some 3, end_time := none },
         { id := 2, command := "C", exit_code := none, stdout := "", stderr := "",
           start_time := none, end_time := none }]).1
      = some { id := 2, command := "C", exit_code := none, stdout := "", stderr := "",
               start_time := some 9, end_time := none } :=
  ⟨choose_command_fst, by decide⟩

/-- Claim C4: marking the selected command Running happens in the same step
as the scan, so a store with exactly one `Choosable` command hands it out
exactly once: the first dispatch returns a command, the resulting store has
no choosable command left, and a second dispatch (at any later clock)
returns no-work and leaves the store unchanged — hence so does every
subsequent one. -/
theorem choose_command_at_most_once (now now' : Nat) (l : List Command)
    (h : l.countP Command.is_choosable = 1) :
    ((Master.choose_command now l).1).isSome = true ∧
    ((Master.choose_command now l).2).countP Command.is_choosable = 0 ∧
    (Master.choose_command now' ((Master.choose_command now l).2)).1 = none ∧
    (Master.choose_command now' ((Master.choose_command now l).2)).2
      = (Master.choose_command now l).2 := by
  have hpos : 0 < l.countP Command.is_choosable := by omega
  obtain ⟨a, ha, hpa⟩ := List.countP_pos_iff.mp hpos
  have hfind : (l.find? Command.is_choosable).isSome := List.find?_isSome.mpr ⟨a, ha, hpa⟩
  obtain ⟨c, hc⟩ := Option.isSome_iff_exists.mp hfind
  have hcount : ((Master.choose_command now l).2).countP Command.is_choosable = 0 := by
    have := choose_command_countP now l c hc
    omega
  have hnone : ∀ x ∈ (Master.choose_command now l).2, ¬ x.is_choosable = true :=
    List.countP_eq_zero.mp hcount
  refine ⟨?_, hcount, ?_, choose_command_snd_of_none now' _ hnone⟩
  · rw [choose_command_fst, hc]; rfl
  · rw [choose_command_fst]
    rw [List.find?_eq_none.mpr hnone]
    rfl

/-- Witness for C4 on a concrete store with one choosable command. -/
theorem choose_command_at_most_once_witness :
    ([{ id := 0, command := "echo hi", exit_code := none, stdout := "", stderr := "",
        start_time := none, end_time := none }] : List Command).countP Command.is_choosable = 1 ∧
    (Master.choose_command 4
        ((Master.choose_command 3
          [{ id := 0, command := "echo hi", exit_code := none, stdout := "", stderr := "",
             start_time := none, end_time := none }]).2)).1 = none :=
  ⟨by decide,
    (choose_command_at_most_once 3 4
      [{ id := 0, command := "echo hi", exit_code := none, stdout := "", stderr := "",
         start_time := none, end_time := none }] (by decide)).2.2.1⟩

/-! ### Claim C1: content of the GET response body -/

/-- Counterexample to claim C1 at a concrete input: a store holding one
Pending command `echo hi`. The GET response body is the full serialized
snapshot: its start_time is the (non-null) dispatch time 5 and its
stdout/stderr keys are present, so the body is not the minimal
only-id-and-text snapshot the claim describes. -/
theorem do_GET_body_not_only_id_text :
    (Master.do_GET 5
        { commands := [{ id := 0, command := "echo hi", exit_code := none, stdout := "",
                         stderr := "", start_time := none, end_time := none }],
          nextID := 1, commandsFile := none,
          stdoutFiles := [(0, "")], stderrFiles := [(0, "")] }).1
      = GetResponse.ok { id := 0, command := "echo hi", exit_code := none,
                         start_time := some 5, end_time := none, std := some ("", "") } ∧
    (Master.do_GET 5
        { commands := [{ id := 0, command := "echo hi", exit_code := none, stdout := "",
                         stderr := "", start_time := none, end_time := none }],
          nextID := 1, commandsFile := none,
          stdoutFiles := [(0, "")], stderrFiles := [(0, "")] }).1
      ≠ GetResponse.ok { id := 0, command := "echo hi", exit_code := none,
                         start_time := none, end_time := none, std := none } := by
  constructor
  · decide
  · decide

/-- Claim C1 as amended: for every poll that finds a Choosable command, the
response body is the full snapshot of the command serialized after it was
marked Running — id and text as stored, exit_code as stored, end_time null,
start_time equal to the (non-null) dispatch time, and stdout/stderr present
as the stored strings. -/
theorem do_GET_full_snapshot (now : Nat) (s : MasterState) (c : Command)
    (h : s.commands.find? Command.is_choosable = some c) :
    (Master.do_GET now s).1 = GetResponse.ok
      { id := c.id, command := c.command, exit_code := c.exit_code,
        start_time := some now, end_time := none, std := some (c.stdout, c.stderr) } := by
  have hc : Command.is_choosable c = true := List.find?_some h
  have hend : c.end_time = none := ((Command.is_choosable_iff c).mp hc).2
  have h1 : (Master.choose_command now s.commands).1
      = some { c with start_time := some now } := by
    rw [choose_command_fst, h]; rfl
  simp [Master.do_GET, h1, Command.serialize, hend]

/-- Witness for the amended claim C1 on a concrete store. -/
theorem do_GET_full_snapshot_witness :
    ({ commands := [{ id := 0, command := "echo hi", exit_code := none, stdout := "",
                      stderr := "", start_time := none, end_time := none }],
       nextID := 1, commandsFile := none, stdoutFiles := [], stderrFiles := [] }
        : MasterState).commands.find? Command.is_choosable
      = some { id := 0, command := "echo hi", exit_code := none, stdout := "",
               stderr := "", start_time := none, end_time := none } ∧
    (Master.do_GET 5
        { commands := [{ id := 0, command := "echo hi", exit_code := none, stdout := "",
                         stderr := "", start_time := none, end_time := none }],
          nextID := 1, commandsFile := none, stdoutFiles := [], stderrFiles := [] }).1
      = GetResponse.ok { id := 0, command := "echo hi", exit_code := none,
                         start_time := some 5, end_time := none, std := some ("", "") } :=
  ⟨by decide,
    do_GET_full_snapshot 5
      { commands := [{ id := 0, command := "echo hi", exit_code := none, stdout := "",
                       stderr := "", start_time := none, end_time := none }],
        nextID := 1, commandsFile := none, stdoutFiles := [], stderrFiles := [] }
      { id := 0, command := "echo hi", exit_code := none, stdout := "",
        stderr := "", start_time := none, end_time := none } (by decide)⟩

/-! ### Helper lemmas about report application (do_POST) -/

/-- The command a report deserializes to when its id is non-negative (the
constructor then keeps the id instead of drawing a fresh one). -/
def SerializedCommand.asCommand (r : SerializedCommand) : Command :=
  { id := r.id, command := r.command, exit_code := r.exit_code,
    stdout := (r.std.map Prod.fst).getD "", stderr := (r.std.map Prod.snd).getD "",
    start_time := r.start_time, end_time := r.end_time }

theorem do_POST_eq (r : SerializedCommand) (s : MasterState) (h0 : 0 ≤ r.id) :
    Master.do_POST r s
      = (204,
        { commands := Master.applyReport r.asCommand s.commands,
          nextID := if r.id ≥ s.nextID then r.id + 1 else s.nextID,
          commandsFile := some ((Master.applyReport r.asCommand s.commands).map
            (fun c => Command.serialize c true)),
          stdoutFiles := fsWrite s.stdoutFiles r.id ((r.std.map Prod.fst).getD ""),
          stderrFiles := fsWrite s.stderrFiles r.id ((r.std.map Prod.snd).getD "") }) := by
  have hlt : ¬ r.id < 0 := by omega
  simp [Master.do_POST, Command.deserialize, Command.init, hlt, Master.save,
        SerializedCommand.asCommand]

theorem applyReport_of_no_match (c : Command) (l : List Command)
    (h : ∀ x ∈ l, x.id ≠ c.id) : Master.applyReport c l = l := by
  induction l with
  | nil => rfl
  | cons x xs ih =>
    simp [Master.applyReport, h x (by simp), ih fun y hy => h y (by simp [hy])]

theorem applyReport_idem (c : Command) (l : List Command) :
    Master.applyReport c (Master.applyReport c l) = Master.applyReport c l := by
  induction l with
  | nil => rfl
  | cons x xs ih =>
    by_cases h : x.id = c.id
    · simp [Master.applyReport, h]
    · simp [Master.applyReport, h, ih]

theorem fsRead_fsWrite_self (f : List (Int × String)) (id : Int) (v : String) :
    fsRead (fsWrite f id v) id = some v := by
  induction f with
  | nil => simp [fsWrite, fsRead]
  | cons kv rest ih =>
    obtain ⟨k, w⟩ := kv
    by_cases h : k = id
    · simp [fsWrite, h, fsRead]
    · simp [fsWrite, h, fsRead] at ih ⊢
      exact ih

theorem fsWrite_fsWrite (f : List (Int × String)) (id : Int) (v : String) :
    fsWrite (fsWrite f id v) id v = fsWrite f id v := by
  induction f with
  | nil => simp [fsWrite]
  | cons kv rest ih =>
    obtain ⟨k, w⟩ := kv
    by_cases h : k = id
    · simp [fsWrite, h]
    · simp [fsWrite, h, ih]

/-! ### Claim C2: report for an unknown id -/

/-- Counterexample to claim C2 at a concrete input: a report with the
unknown id 7 arriving at an empty coordinator. The sender does get the 204
status and the command list is untouched, but the coordinator's state is
NOT left unchanged: the id generator advances to 8, the metadata file gets
(re)written, and stdout/stderr files are created for the unknown id. -/
theorem do_POST_unknown_id_mutates_state :
    (Master.do_POST { id := 7, command := "x", exit_code := some 0, start_time := some 1,
                      end_time := some 2, std := some ("out", "err") } emptyMaster).1 = 204 ∧
    (Master.do_POST { id := 7, command := "x", exit_code := some 0, start_time := some 1,
                      end_time := some 2, std := some ("out", "err") } emptyMaster).2.commands
      = emptyMaster.commands ∧
    (Master.do_POST { id := 7, command := "x", exit_code := some 0, start_time := some 1,
                      end_time := some 2, std := some ("out", "err") } emptyMaster).2
      ≠ emptyMaster := by
  refine ⟨by decide, by decide, by decide⟩

/-- Claim C2 as amended: a report whose (non-negative) id matches no stored
command is dropped from the command list with no error — the sender still
receives 204 and the in-memory list is unchanged — but the id generator
still advances past the report's id and the report's stdout/stderr are
still written to the per-id files. -/
theorem do_POST_unknown_id_drops_report (r : SerializedCommand) (s : MasterState)
    (h0 : 0 ≤ r.id) (h : ∀ c ∈ s.commands, c.id ≠ r.id) :
    (Master.do_POST r s).1 = 204 ∧
    (Master.do_POST r s).2.commands = s.commands ∧
    (Master.do_POST r s).2.nextID = (if r.id ≥ s.nextID then r.id + 1 else s.nextID) ∧
    fsRead (Master.do_POST r s).2.stdoutFiles r.id = some ((r.std.map Prod.fst).getD "") ∧
    fsRead (Master.do_POST r s).2.stderrFiles r.id = some ((r.std.map Prod.snd).getD "") := by
  have hap : Master.applyReport r.asCommand s.commands = s.commands :=
    applyReport_of_no_match _ _ fun x hx => h x hx
  rw [do_POST_eq r s h0]
  exact ⟨rfl, hap, rfl, fsRead_fsWrite_self .., fsRead_fsWrite_self ..⟩

/-- Witness for the amended claim C2 on a concrete store. -/
theorem do_POST_unknown_id_drops_report_witness :
    (∀ c ∈ ({ commands := [{ id := 0, command := "echo hi", exit_code := none, stdout := "",
                             stderr := "", start_time := none, end_time := none }],
              nextID := 1, commandsFile := none, stdoutFiles := [], stderrFiles := [] }
        : MasterState).commands, c.id ≠ (3 : Int)) ∧
    (Master.do_POST { id := 3, command := "y", exit_code := some 1, start_time := some 4,
                      end_time := some 6, std := some ("o", "e") }
        { commands := [{ id := 0, command := "echo hi", exit_code := none, stdout := "",
                         stderr := "", start_time := none, end_time := none }],
          nextID := 1, commandsFile := none, stdoutFiles := [], stderrFiles := [] }).2.commands
      = [{ id := 0, command := "echo hi", exit_code := none, stdout := "",
           stderr := "", start_time := none, end_time := none }] :=
  ⟨by decide,
    (do_POST_unknown_id_drops_report
      { id := 3, command := "y", exit_code := some 1, start_time := some 4,
        end_time := some 6, std := some ("o", "e") }
      { commands := [{ id := 0, command := "echo hi", exit_code := none, stdout := "",
                       stderr := "", start_time := none, end_time := none }],
        nextID := 1, commandsFile := none, stdoutFiles := [], stderrFiles := [] }
      (by decide) (by decide)).2.1⟩

/-! ### Claim C9: report application is idempotent -/

/-- Claim C9: applying the same report twice leaves the coordinator exactly
as applying it once — report application wholesale-replaces the stored
fields, the generator does not move on the second application, and the
metadata and per-id files are rewritten with identical content. -/
theorem do_POST_idempotent (r : SerializedCommand) (s : MasterState)
    (h0 : 0 ≤ r.id) (hknown : s.commands.any (fun c => c.id == r.id) = true) :
    Master.do_POST r ((Master.do_POST r s).2) = Master.do_POST r s := by
  rw [do_POST_eq r s h0, do_POST_eq r _ h0]
  have hlt : r.id < (if r.id ≥ s.nextID then r.id + 1 else s.nextID) := by
    split <;> omega
  have hnext : (if r.id ≥ (if r.id ≥ s.nextID then r.id + 1 else s.nextID) then r.id + 1
      else (if r.id ≥ s.nextID then r.id + 1 else s.nextID))
      = (if r.id ≥ s.nextID then r.id + 1 else s.nextID) := by
    rw [if_neg (by omega)]
  simp [applyReport_idem, fsWrite_fsWrite, hnext]

/-- Witness for claim C9 on a concrete store and a concrete final report. -/
theorem do_POST_idempotent_witness :
    (({ commands := [{ id := 0, command := "echo hi", exit_code := none, stdout := "",
                       stderr := "", start_time := some 1, end_time := none }],
        nextID := 1, commandsFile := none, stdoutFiles := [], stderrFiles := [] }
      : MasterState).commands.any (fun c => c.id == (0 : Int)) = true) ∧
    Master.do_POST
        { id := 0, command := "echo hi", exit_code := some 0, start_time := some 1,
          end_time := some 2, std := some ("hi\n", "") }
        ((Master.do_POST
          { id := 0, command := "echo hi", exit_code := some 0, start_time := some 1,
            end_time := some 2, std := some ("hi\n", "") }
          { commands := [{ id := 0, command := "echo hi", exit_code := none, stdout := "",
                           stderr := "", start_time := some 1, end_time := none }],
            nextID := 1, commandsFile := none, stdoutFiles := [], stderrFiles := [] }).2)
      = Master.do_POST
        { id := 0, command := "echo hi", exit_code := some 0, start_time := some 1,
          end_time := some 2, std := some ("hi\n", "") }
        { commands := [{ id := 0, command := "echo hi", exit_code := none, stdout := "",
                         stderr := "", start_time := some 1, end_time := none }],
          nextID := 1, commandsFile := none, stdoutFiles := [], stderrFiles := [] } :=
  ⟨by decide,
    do_POST_idempotent
      { id := 0, command := "echo hi", exit_code := some 0, start_time := some 1,
        end_time := some 2, std := some ("hi\n", "") }
      { commands := [{ id := 0, command := "echo hi", exit_code := none, stdout := "",
                       stderr := "", start_time := some 1, end_time := none }],
        nextID := 1, commandsFile := none, stdoutFiles := [], stderrFiles := [] }
      (by decide) (by decide)⟩

/-! ### Claims C5 and C10: restart -/

theorem restart_commands_of_ran (i : Nat) (s : MasterState) (c : Command)
    (h : s.commands[i]? = some c) (hr : c.is_ran = true) :
    (Master.restart_command i s).commands
      = s.commands.set i { id := c.id, command := c.command, exit_code := none,
                           stdout := "", stderr := "", start_time := none, end_time := none } := by
  simp [Master.restart_command, h, hr, Master.save]

/-- Claim C5: restart is a no-op unless the selected command is Terminal
(end_time present, `is_ran`); when it is, restart clears exactly exit_code,
stdout, stderr, start_time and end_time in place — the resulting stored
command keeps its id and text and has every other field cleared (Pending
again). -/
theorem restart_command_frame (i : Nat) (s : MasterState) (c : Command)
    (h : s.commands[i]? = some c) :
    (c.is_ran = false → Master.restart_command i s = s) ∧
    (c.is_ran = true → (Master.restart_command i s).commands
      = s.commands.set i { id := c.id, command := c.command, exit_code := none,
                           stdout := "", stderr := "", start_time := none, end_time := none }) := by
  constructor
  · intro hr
    simp [Master.restart_command, h, hr]
  · intro hr
    exact restart_commands_of_ran i s c h hr

/-- Witness for claim C5: a Running command is left alone, a Terminal one is
cleared back to Pending keeping id and text. -/
theorem restart_command_frame_witness :
    (Master.restart_command 0
        { commands := [{ id := 0, command := "sleep 5", exit_code := none, stdout := "",
                         stderr := "", start_time := some 1, end_time := none }],
          nextID := 1, commandsFile := none, stdoutFiles := [(0, "")], stderrFiles := [(0, "")] }
      = { commands := [{ id := 0, command := "sleep 5", exit_code := none, stdout := "",
                         stderr := "", start_time := some 1, end_time := none }],
          nextID := 1, commandsFile := none, stdoutFiles := [(0, "")], stderrFiles := [(0, "")] }) ∧
    ((Master.restart_command 0
        { commands := [{ id := 4, command := "ls", exit_code := some 0, stdout := "a\n",
                         stderr := "boom", start_time := some 1, end_time := some 2 }],
          nextID := 5, commandsFile := none, stdoutFiles := [(4, "a\n")], stderrFiles := [(4, "boom")] }).commands
      = [{ id := 4, command := "ls", exit_code := none, stdout := "",
           stderr := "", start_time := none, end_time := none }]) :=
  ⟨(restart_command_frame 0
      { commands := [{ id := 0, command := "sleep 5", exit_code := none, stdout := "",
                       stderr := "", start_time := some 1, end_time := none }],
        nextID := 1, commandsFile := none, stdoutFiles := [(0, "")], stderrFiles := [(0, "")] }
      { id := 0, command := "sleep 5", exit_code := none, stdout := "",
        stderr := "", start_time := some 1, end_time := none }
      (by decide)).1 (by decide),
   ((restart_command_frame 0
      { commands := [{ id := 4, command := "ls", exit_code := some 0, stdout := "a\n",
                       stderr := "boom", start_time := some 1, end_time := some 2 }],
        nextID := 5, commandsFile := none, stdoutFiles := [(4, "a\n")], stderrFiles := [(4, "boom")] }
      { id := 4, command := "ls", exit_code := some 0, stdout := "a\n",
        stderr := "boom", start_time := some 1, end_time := some 2 }
      (by decide)).2 (by decide))⟩

/-- Claim C10: restarting a Terminal command keeps it at its original index
in the coordinator's list: the length is unchanged, every other position is
untouched, position `i` now holds the cleared (Pending) command, and the
next dispatch picks its command from the first `i + 1` positions — so the
restarted command is dispatched before every Pending command added after
its original insertion point. -/
theorem restart_command_keeps_position (now i : Nat) (s : MasterState) (c : Command)
    (h : s.commands[i]? = some c) (hr : c.is_ran = true) :
    (Master.restart_command i s).commands.length = s.commands.length ∧
    (∀ j, j ≠ i → (Master.restart_command i s).commands[j]? = s.commands[j]?) ∧
    (Master.restart_command i s).commands[i]?
      = some { id := c.id, command := c.command, exit_code := none, stdout := "",
               stderr := "", start_time := none, end_time := none } ∧
    (Master.choose_command now ((Master.restart_command i s).commands)).1
      = (((Master.restart_command i s).commands.take (i + 1)).find? Command.is_choosable).map
          (fun x => { x with start_time := some now }) := by
  have hcmds := restart_commands_of_ran i s c h hr
  have hlen : i < s.commands.length := by
    rcases List.getElem?_eq_some_iff.mp h with ⟨hl, _⟩
    exact hl
  refine ⟨by rw [hcmds]; exact List.length_set .., ?_, ?_, ?_⟩
  · intro j hj
    rw [hcmds]
    exact List.getElem?_set_ne (fun hij => hj hij.symm)
  · rw [hcmds]
    exact List.getElem?_set_self (by simpa using hlen)
  · rw [choose_command_fst]
    have hmem : ((Master.restart_command i s).commands.take (i + 1))[i]?
        = some { id := c.id, command := c.command, exit_code := none, stdout := "",
                 stderr := "", start_time := none, end_time := none } := by
      rw [List.getElem?_take_of_succ, hcmds]
      exact List.getElem?_set_self (by simpa using hlen)
    have hsome : (((Master.restart_command i s).commands.take (i + 1)).find?
        Command.is_choosable).isSome := by
      refine List.find?_isSome.mpr ⟨_, List.getElem?_mem hmem, ?_⟩
      rfl
    obtain ⟨v, hv⟩ := Option.isSome_iff_exists.mp hsome
    conv_lhs => rw [← List.take_append_drop (i + 1) ((Master.restart_command i s).commands)]
    rw [List.find?_append, hv]
    rfl

/-- Witness for claim C10: in a store [Running, Terminal, Pending],
restarting the Terminal command at index 1 keeps it at index 1, leaves
index 2 alone, and the next dispatch comes from the first two positions. -/
theorem restart_command_keeps_position_witness :
    ({ commands := [{ id := 0, command := "r", exit_code := none, stdout := "",
                      stderr := "", start_time := some 1, end_time := none },
                    { id := 1, command := "t", exit_code := some 0, stdout := "o",
                      stderr := "e", start_time := some 2, end_time := some 3 },
                    { id := 2, command := "p", exit_code := none, stdout := "",
                      stderr := "", start_time := none, end_time := none }],
       nextID := 3, commandsFile := none, stdoutFiles := [], stderrFiles := [] }
      : MasterState).commands[1]?
      = some { id := 1, command := "t", exit_code := some 0, stdout := "o",
               stderr := "e", start_time := some 2, end_time := some 3 } ∧
    (Master.restart_command 1
        { commands := [{ id := 0, command := "r", exit_code := none, stdout := "",
                         stderr := "", start_time := some 1, end_time := none },
                       { id := 1, command := "t", exit_code := some 0, stdout := "o",
                         stderr := "e", start_time := some 2, end_time := some 3 },
                       { id := 2, command := "p", exit_code := none, stdout := "",
                         stderr := "", start_time := none, end_time := none }],
          nextID := 3, commandsFile := none, stdoutFiles := [], stderrFiles := [] }).commands[2]?
      = some { id := 2, command := "p", exit_code := none, stdout := "",
               stderr := "", start_time := none, end_time := none } ∧
    (Master.restart_command 1
        { commands := [{ id := 0, command := "r", exit_code := none, stdout := "",
                         stderr := "", start_time := some 1, end_time := none },
                       { id := 1, command := "t", exit_code := some 0, stdout := "o",
                         stderr := "e", start_time := some 2, end_time := some 3 },
                       { id := 2, command := "p", exit_code := none, stdout := "",
                         stderr := "", start_time := none, end_time := none }],
          nextID := 3, commandsFile := none, stdoutFiles := [], stderrFiles := [] }).commands[1]?
      = some { id := 1, command := "t", exit_code := none, stdout := "",
               stderr := "", start_time := none, end_time := none } :=
  ⟨by decide,
    ((restart_command_keeps_position 9 1
        { commands := [{ id := 0, command := "r", exit_code := none, stdout := "",
                         stderr := "", start_time := some 1, end_time := none },
                       { id := 1, command := "t", exit_code := some 0, stdout := "o",
                         stderr := "e", start_time := some 2, end_time := some 3 },
                       { id := 2, command := "p", exit_code := none, stdout := "",
                         stderr := "", start_time := none, end_time := none }],
          nextID := 3, commandsFile := none, stdoutFiles := [], stderrFiles := [] }
        { id := 1, command := "t", exit_code := some 0, stdout := "o",
          stderr := "e", start_time := some 2, end_time := some 3 }
        (by decide) (by decide)).2.1 2 (by decide)).trans (by decide),
    (restart_command_keeps_position 9 1
        { commands := [{ id := 0, command := "r", exit_code := none, stdout := "",
                         stderr := "", start_time := some 1, end_time := none },
                       { id := 1, command := "t", exit_code := some 0, stdout := "o",
                         stderr := "e", start_time := some 2, end_time := some 3 },
                       { id := 2, command := "p", exit_code := none, stdout := "",
                         stderr := "", start_time := none, end_time := none }],
          nextID := 3, commandsFile := none, stdoutFiles := [], stderrFiles := [] }
        { id := 1, command := "t", exit_code := some 0, stdout := "o",
          stderr := "e", start_time := some 2, end_time := some 3 }
        (by decide) (by decide)).2.2.1⟩

/-! ### Claim C6: persistence round-trip -/

theorem deserialize_serialize (ID : Int) (c : Command) (h : 0 ≤ c.id) :
    Command.deserialize ID (Command.serialize c true)
      = ({ c with stdout := "", stderr := "" }, if c.id ≥ ID then c.id + 1 else ID) := by
  have hlt : ¬ c.id < 0 := by omega
  simp [Command.deserialize, Command.serialize, Command.init, hlt]

theorem deserializeAll_serialize (l : List Command) :
    ∀ ID : Int, (∀ c ∈ l, 0 ≤ c.id) →
      (Master.deserializeAll ID (l.map (fun c => Command.serialize c true))).1
        = l.map (fun c => { c with stdout := "", stderr := "" }) := by
  induction l with
  | nil => intro ID _; rfl
  | cons c cs ih =>
    intro ID h
    rw [List.map_cons, List.map_cons]
    simp only [Master.deserializeAll]
    rw [deserialize_serialize ID c (h c (by simp))]
    exact congrArg _ (ih _ fun x hx => h x (by simp [hx]))

theorem hydrate_strip (so se : List (Int × String)) (c : Command)
    (hso : fsRead so c.id = some c.stdout ∨ (fsRead so c.id = none ∧ c.stdout = ""))
    (hse : fsRead se c.id = some c.stderr ∨ (fsRead se c.id = none ∧ c.stderr = "")) :
    Master.hydrate so se { c with stdout := "", stderr := "" } = c := by
  rcases hso with hso | ⟨hso, hso0⟩ <;> rcases hse with hse | ⟨hse, hse0⟩
  · simp [Master.hydrate, hso, hse]
  · simp [Master.hydrate, hso, hse]
    rw [← hse0]
  · simp [Master.hydrate, hso, hse]
    rw [← hso0]
  · simp [Master.hydrate, hso, hse]
    nth_rewrite 2 [← hse0]
    rw [← hso0]

/-- Claim C6: the persistence round-trip. Starting from a store whose per-id
stdout/stderr files agree with the in-memory commands (a missing file only
for an empty stream, which is how every coordinator operation leaves them),
saving the metadata file and loading it into a fresh coordinator that sees
the same per-id files reproduces the command list field for field; in
particular every command that was Running at save time is still Running. -/
theorem save_load_round_trip (s : MasterState)
    (hid : ∀ c ∈ s.commands, 0 ≤ c.id)
    (hso : ∀ c ∈ s.commands,
      fsRead s.stdoutFiles c.id = some c.stdout ∨
        (fsRead s.stdoutFiles c.id = none ∧ c.stdout = ""))
    (hse : ∀ c ∈ s.commands,
      fsRead s.stderrFiles c.id = some c.stderr ∨
        (fsRead s.stderrFiles c.id = none ∧ c.stderr = "")) :
    (Master.load { commands := [], nextID := 0,
                   commandsFile := (Master.save s).commandsFile,
                   stdoutFiles := s.stdoutFiles, stderrFiles := s.stderrFiles }).commands
      = s.commands ∧
    (Master.load { commands := [], nextID := 0,
                   commandsFile := (Master.save s).commandsFile,
                   stdoutFiles := s.stdoutFiles, stderrFiles := s.stderrFiles }).commands.map
        Command.is_running
      = s.commands.map Command.is_running := by
  have hmain : (Master.load { commands := [], nextID := 0,
                              commandsFile := (Master.save s).commandsFile,
                              stdoutFiles := s.stdoutFiles,
                              stderrFiles := s.stderrFiles }).commands = s.commands := by
    show (Master.load { commands := [], nextID := 0,
                        commandsFile := some (s.commands.map (fun c => Command.serialize c true)),
                        stdoutFiles := s.stdoutFiles,
                        stderrFiles := s.stderrFiles }).commands = s.commands
    simp only [Master.load, List.nil_append]
    rw [deserializeAll_serialize s.commands 0 hid, List.map_map]
    have hpt : ∀ c ∈ s.commands,
        (Master.hydrate s.stdoutFiles s.stderrFiles
          ∘ fun x => { x with stdout := "", stderr := "" }) c = id c := by
      intro c hc
      exact hydrate_strip s.stdoutFiles s.stderrFiles c (hso c hc) (hse c hc)
    rw [List.map_congr_left hpt, List.map_id]
  exact ⟨hmain, by rw [hmain]⟩

/-- A concrete store for the round-trip witness: a Running command whose
stderr file is missing (empty stream) and a Terminal command whose stdout
file is missing. -/
def roundTripStore : MasterState :=
  { commands := [{ id := 0, command := "a", exit_code := none, stdout := "out",
                   stderr := "", start_time := some 1, end_time := none },
                 { id := 1, command := "b", exit_code := some 0, stdout := "",
                   stderr := "err", start_time := some 1, end_time := some 2 }],
    nextID := 2, commandsFile := none,
    stdoutFiles := [(0, "out")], stderrFiles := [(1, "err")] }

/-- Witness for claim C6 on `roundTripStore`. -/
theorem save_load_round_trip_witness :
    (∀ c ∈ roundTripStore.commands, 0 ≤ c.id) ∧
    (Master.load { commands := [], nextID := 0,
                   commandsFile := (Master.save roundTripStore).commandsFile,
                   stdoutFiles := roundTripStore.stdoutFiles,
                   stderrFiles := roundTripStore.stderrFiles }).commands
      = roundTripStore.commands :=
  ⟨by decide, (save_load_round_trip roundTripStore (by decide) (by decide) (by decide)).1⟩

/-! ### Claim C8: bulk add from a newline-delimited source -/

theorem create_eq (ID : Int) (t : String) :
    Command.create ID t
      = ({ id := ID, command := t, exit_code := none, stdout := "", stderr := "",
           start_time := none, end_time := none }, ID + 1) := by
  simp [Command.create, Command.init]

theorem add_command_blank (t : String) (s : MasterState) (h : isBlankLine t = true) :
    Master.add_command t s = s := by
  simp [Master.add_command, h]

theorem add_command_not_blank (t : String) (s : MasterState) (h : isBlankLine t = false) :
    (Master.add_command t s).commands = s.commands ++ [(Command.create s.nextID t).1] ∧
    (Master.add_command t s).nextID = (Command.create s.nextID t).2 := by
  simp [Master.add_command, h, Master.save]

/-- The commands a bulk add appends for the given (already newline-stripped,
non-blank) texts, in order, with consecutive fresh ids starting at `ID`. -/
def mkPendings (ID : Int) : List String → List Command
  | [] => []
  | t :: ts => (Command.create ID t).1 :: mkPendings (Command.create ID t).2 ts

theorem foldl_add_commands (lines : List String) :
    ∀ s : MasterState,
      (lines.foldl (fun acc line => Master.add_command (stripNL line) acc) s).commands
        = s.commands
            ++ mkPendings s.nextID ((lines.map stripNL).filter (fun t => !isBlankLine t)) := by
  induction lines with
  | nil => intro s; simp [mkPendings]
  | cons line rest ih =>
    intro s
    rw [List.foldl_cons, List.map_cons]
    by_cases h : isBlankLine (stripNL line) = true
    · rw [add_command_blank _ _ h, List.filter_cons_of_neg (by simp [h]), ih s]
    · have h' : isBlankLine (stripNL line) = false := by simpa using h
      rw [List.filter_cons_of_pos (by simp [h']), ih (Master.add_command (stripNL line) s)]
      obtain ⟨hc, hn⟩ := add_command_not_blank (stripNL line) s h'
      rw [hc, hn]
      simp [mkPendings]

theorem mkPendings_choosable (ts : List String) : ∀ ID : Int,
    (mkPendings ID ts).all Command.is_choosable = true := by
  induction ts with
  | nil => intro ID; rfl
  | cons t ts ih =>
    intro ID
    simp [mkPendings, create_eq, ih, Command.is_choosable, Command.is_running, Command.is_ran]

/-- Claim C8: bulk add. An unreadable source (`none`) is a silent no-op; a
readable source appends exactly one fresh Pending command per non-blank
stripped line, in file order; every appended command is Pending
(`Choosable`); and concretely, a 3-line file whose middle line is all
whitespace adds exactly the two commands `echo a` and `echo b`, both
Pending, to an empty coordinator. -/
theorem add_commands_from_file_spec :
    (∀ s : MasterState, Master.add_commands_from_file none s = s) ∧
    (∀ (lines : List String) (s : MasterState),
        (Master.add_commands_from_file (some lines) s).commands
          = s.commands
              ++ mkPendings s.nextID ((lines.map stripNL).filter (fun t => !isBlankLine t))) ∧
    (∀ (ID : Int) (ts : List String), (mkPendings ID ts).all Command.is_choosable = true) ∧
    (Master.add_commands_from_file (some ["echo a\n", "   \n", "echo b\n"]) emptyMaster).commands
      = [{ id := 0, command := "echo a", exit_code := none, stdout := "", stderr := "",
           start_time := none, end_time := none },
         { id := 1, command := "echo b", exit_code := none, stdout := "", stderr := "",
           start_time := none, end_time := none }] :=
  ⟨fun _ => rfl, fun lines s => foldl_add_commands lines s,
   fun ID ts => mkPendings_choosable ts ID, by decide⟩

/-! ### Claim C7: the id generator

The class-level generator `Command.ID` is touched by exactly two code paths:
the constructor with the default id `-1` (`Command.create`, which assigns
the current value and increments) and `Command.deserialize` (which advances
it past any incoming id, and is the path taken both when loading from
durable storage and when a report body arrives in `do_POST`, known id or
not). A history of the generator is a list of these events. -/
inductive IdEvent where
  | fresh
  | seen (id : Int)
deriving DecidableEq, Repr

/-- A serialized record carrying the id `n`, as seen by `deserialize`; the
other fields do not touch the generator. -/
def seenRecord (n : Int) : SerializedCommand :=
  { id := n, command := "", exit_code := none, start_time := none,
    end_time := none, std := none }

/-- How one event moves the generator, via the embedded source functions. -/
def stepID (ID : Int) : IdEvent → Int
  | IdEvent.fresh => (Command.create ID "").2
  | IdEvent.seen n => (Command.deserialize ID (seenRecord n)).2

/-- The ids observed during one event: the id assigned by the constructor
for a fresh creation; the incoming id for a deserialization (plus, for a
negative incoming id, the id the constructor then assigns instead). -/
def idsOf (ID : Int) : IdEvent → List Int
  | IdEvent.fresh => [(Command.create ID "").1.id]
  | IdEvent.seen n =>
    if n < 0 then [n, (Command.deserialize ID (seenRecord n)).1.id] else [n]

/-- The generator value after a history of events. -/
def finalID : Int → List IdEvent → Int
  | ID, [] => ID
  | ID, e :: es => finalID (stepID ID e) es

/-- All ids observed during a history, in order. -/
def idTrace : Int → List IdEvent → List Int
  | _, [] => []
  | ID, e :: es => idsOf ID e ++ idTrace (stepID ID e) es

theorem le_stepID (ID : Int) (e : IdEvent) : ID ≤ stepID ID e := by
  cases e with
  | fresh =>
    simp only [stepID, Command.create, Command.init]
    split <;> omega
  | seen n =>
    simp only [stepID, Command.deserialize, seenRecord, Command.init]
    split <;> split <;> simp <;> omega

theorem stepID_nonneg (ID : Int) (e : IdEvent) (h : 0 ≤ ID) : 0 ≤ stepID ID e :=
  le_trans h (le_stepID ID e)

theorem idsOf_lt_stepID (ID : Int) (e : IdEvent) (h : 0 ≤ ID) :
    ∀ x ∈ idsOf ID e, x < stepID ID e := by
  cases e with
  | fresh =>
    intro x hx
    simp [idsOf, Command.create, Command.init] at hx
    simp [stepID, Command.create, Command.init]
    omega
  | seen n =>
    intro x hx
    by_cases hn : n < 0
    · have hni : ¬ n ≥ ID := by omega
      simp only [idsOf, stepID, Command.deserialize, seenRecord, Command.init] at hx ⊢
      simp [hn, hni] at hx ⊢
      rcases hx with rfl | rfl <;> omega
    · simp only [idsOf, stepID, Command.deserialize, seenRecord, Command.init] at hx ⊢
      simp [hn] at hx ⊢
      subst hx
      split <;> omega

theorem le_finalID (es : List IdEvent) : ∀ ID : Int, ID ≤ finalID ID es := by
  induction es with
  | nil => intro ID; exact le_refl ID
  | cons e es ih => intro ID; exact le_trans (le_stepID ID e) (ih (stepID ID e))

theorem idTrace_lt_finalID (es : List IdEvent) : ∀ ID : Int, 0 ≤ ID →
    ∀ x ∈ idTrace ID es, x < finalID ID es := by
  induction es with
  | nil => intro ID _ x hx; simp [idTrace] at hx
  | cons e es ih =>
    intro ID h x hx
    simp only [idTrace, List.mem_append] at hx
    show x < finalID (stepID ID e) es
    rcases hx with hx | hx
    · exact lt_of_lt_of_le (idsOf_lt_stepID ID e h x hx) (le_finalID es (stepID ID e))
    · exact ih (stepID ID e) (stepID_nonneg ID e h) x hx

theorem idTrace_snoc_fresh (es : List IdEvent) : ∀ ID : Int,
    idTrace ID (es ++ [IdEvent.fresh]) = idTrace ID es ++ [finalID ID es] := by
  induction es with
  | nil =>
    intro ID
    simp [idTrace, idsOf, finalID, Command.create, Command.init]
  | cons e es ih =>
    intro ID
    show idsOf ID e ++ idTrace (stepID ID e) (es ++ [IdEvent.fresh])
        = (idsOf ID e ++ idTrace (stepID ID e) es) ++ [finalID (stepID ID e) es]
    rw [ih (stepID ID e)]
    rw [List.append_assoc]

/-- Claim C7: starting from the initial generator value 0, every id observed
during any history of generator events — fresh creations, ids loaded from
durable storage, ids arriving on reports (even unknown or negative ones) —
is strictly below the generator's current value, and the id assigned by the
next fresh creation is exactly that current value: so every assigned id is
strictly greater than every id seen before it, and no id is ever reused. -/
theorem fresh_id_gt_all_seen :
    (∀ (es : List IdEvent) (x : Int), x ∈ idTrace 0 es → x < finalID 0 es) ∧
    (∀ es : List IdEvent, idTrace 0 (es ++ [IdEvent.fresh]) = idTrace 0 es ++ [finalID 0 es]) :=
  ⟨fun es x hx => idTrace_lt_finalID es 0 (by omega) x hx,
   fun es => idTrace_snoc_fresh es 0⟩

/-- Witness for claim C7: after one fresh creation and a report carrying
id 5, the id 5 was observed and is strictly below the next fresh id. -/
theorem fresh_id_gt_all_seen_witness :
    (5 : Int) ∈ idTrace 0 [IdEvent.fresh, IdEvent.seen 5] ∧
    (5 : Int) < finalID 0 [IdEvent.fresh, IdEvent.seen 5] :=
  ⟨by decide, fresh_id_gt_all_seen.1 [IdEvent.fresh, IdEvent.seen 5] 5 (by decide)⟩
